import Mathlib

/-!
Verification development for `proxy_server.py`, a small asyncio forward
HTTP/HTTPS proxy.  The Python source is shallowly embedded: bytes are
`List Nat`, Python strings are `List Char`, and each Python function of the
core (`get_target_host`, `send_forbidden`, `handle_https`, `forward_http`,
`relay`, `handle_client`) becomes a total Lean function.  A raised-and-caught
exception is modelled by the `Option`/result shape the catching code produces
(`get_target_host`'s catch-all returns `(None, None)`, i.e. `none`; the
handler's catch-all closes the client connection).
-/

namespace ProxyServer

/-! ## Python string primitives -/

/-- ASCII whitespace, the characters Python's `str.strip()` and no-argument
`str.split()` treat as whitespace (restricted to ASCII, which is all the
development needs). -/
def isSpaceChar (c : Char) : Bool :=
  c = ' ' || c = '\t' || c = '\n' || c = '\r' || c = '\x0b' || c = '\x0c'

/-- Python `s.split(sep)` for a one-character separator `sep`:
always returns at least one field, keeps empty fields. -/
def pySplit (sep : Char) : List Char → List (List Char)
  | [] => [[]]
  | c :: cs =>
    if c = sep then [] :: pySplit sep cs
    else
      match pySplit sep cs with
      | t :: ts => (c :: t) :: ts
      | [] => [[c]]

/-- Auxiliary accumulator loop for `pySplitWs`. -/
def splitWsAux : List Char → List Char → List (List Char)
  | [], acc => if acc.isEmpty then [] else [acc.reverse]
  | c :: cs, acc =>
    if isSpaceChar c then
      if acc.isEmpty then splitWsAux cs [] else acc.reverse :: splitWsAux cs []
    else splitWsAux cs (c :: acc)

/-- Python `s.split()` with no argument: split on runs of whitespace,
discarding empty fields.  Used to state what "whitespace-delimited token"
means; the source itself only ever splits on a single space character. -/
def pySplitWs (l : List Char) : List (List Char) :=
  splitWsAux l []

/-- Python `s.strip()`: remove leading and trailing whitespace. -/
def pyStrip (l : List Char) : List Char :=
  ((l.dropWhile isSpaceChar).reverse.dropWhile isSpaceChar).reverse

/-- Value of an ASCII decimal digit. -/
def digitVal (c : Char) : Option Nat :=
  if '0' ≤ c ∧ c ≤ '9' then some (c.toNat - 48) else none

/-- Digit loop of Python `int()`: after the first digit, a single underscore
may separate two digits; underscores may not lead, trail, or repeat. -/
def pyDigitsGo (acc : Nat) : List Char → Option Nat
  | [] => some acc
  | '_' :: c :: cs =>
    match digitVal c with
    | some d => pyDigitsGo (acc * 10 + d) cs
    | none => none
  | c :: cs =>
    match digitVal c with
    | some d => pyDigitsGo (acc * 10 + d) cs
    | none => none

/-- A non-empty run of decimal digits with optional single underscores
between digits, as Python `int()` accepts after the sign. -/
def pyDigits : List Char → Option Nat
  | [] => none
  | c :: cs =>
    match digitVal c with
    | some d => pyDigitsGo d cs
    | none => none

/-- Python `int(s)`: strips surrounding whitespace, allows an optional sign,
then a digit run with underscores between digits.  (Python additionally
accepts non-ASCII Unicode decimal digits; those are not modelled.) -/
def pyInt (l : List Char) : Option Int :=
  match pyStrip l with
  | '+' :: rest => (pyDigits rest).map Int.ofNat
  | '-' :: rest => (pyDigits rest).map fun n => -(Int.ofNat n)
  | rest => (pyDigits rest).map Int.ofNat

/-! ## UTF-8 decoding

`bytes.decode('utf-8')` with the default strict error handler: rejects
truncated sequences, stray continuation bytes, overlong encodings,
surrogate code points and code points above U+10FFFF. -/

/-- Is `b` a UTF-8 continuation byte (`0x80..0xBF`)? -/
def isCont (b : Nat) : Bool :=
  0x80 ≤ b && b < 0xC0

/-- Strict UTF-8 decoding of a byte list, Python `bytes.decode('utf-8')`:
`none` is a `UnicodeDecodeError`. -/
def utf8Decode : List Nat → Option (List Char)
  | [] => some []
  | b :: rest =>
    if b < 0x80 then
      (utf8Decode rest).map fun cs => Char.ofNat b :: cs
    else if b < 0xC2 then none
    else if b < 0xE0 then
      match rest with
      | b1 :: rest1 =>
        if isCont b1 then
          (utf8Decode rest1).map fun cs =>
            Char.ofNat ((b - 0xC0) * 0x40 + (b1 - 0x80)) :: cs
        else none
      | [] => none
    else if b < 0xF0 then
      match rest with
      | b1 :: b2 :: rest2 =>
        if isCont b1 ∧ isCont b2 ∧ (b = 0xE0 → 0xA0 ≤ b1) ∧ (b = 0xED → b1 ≤ 0x9F) then
          (utf8Decode rest2).map fun cs =>
            Char.ofNat ((b - 0xE0) * 0x1000 + (b1 - 0x80) * 0x40 + (b2 - 0x80)) :: cs
        else none
      | _ => none
    else if b < 0xF5 then
      match rest with
      | b1 :: b2 :: b3 :: rest3 =>
        if isCont b1 ∧ isCont b2 ∧ isCont b3 ∧ (b = 0xF0 → 0x90 ≤ b1) ∧ (b = 0xF4 → b1 ≤ 0x8F) then
          (utf8Decode rest3).map fun cs =>
            Char.ofNat ((b - 0xF0) * 0x40000 + (b1 - 0x80) * 0x1000
              + (b2 - 0x80) * 0x40 + (b3 - 0x80)) :: cs
        else none
      | _ => none
    else none

/-- UTF-8 encoding of ASCII text (`str.encode('utf-8')`; every literal the
server writes is pure ASCII, for which the encoding is the identity on code
points). -/
def asciiBytes (s : List Char) : List Nat :=
  s.map Char.toNat

/-! ## Configuration constants (module level in `proxy_server.py`) -/

/-- `BUFFER_SIZE = 4096`, the size argument of every `reader.read` call. -/
def BUFFER_SIZE : Nat := 4096

/-- `MAX_WORKERS = 100`; declared in the source but never used. -/
def MAX_WORKERS : Nat := 100

/-- `BLOCKED_HOSTS = ['www.example.com']`. -/
def BLOCKED_HOSTS : List (List Char) :=
  ["www.example.com".toList]

/-- The literal `'CONNECT'` tested by `request_str.startswith('CONNECT')`. -/
def CONNECT_TOK : List Char := "CONNECT".toList

/-- The literal `'Host:'` tested by `line.startswith('Host:')`. -/
def HOST_TOK : List Char := "Host:".toList

/-- The byte literal `b'CONNECT'` tested by `request.startswith(b'CONNECT')`
in `handle_client`. -/
def connectBytes : List Nat := asciiBytes CONNECT_TOK

/-! ## `get_target_host` -/

/-- The `for line in lines: if line.startswith('Host:') ...` loop of
`get_target_host`.  On the first matching line the source evaluates
`line.split(' ')[1].strip()`; a missing index raises `IndexError`, which the
surrounding catch-all turns into `(None, None)`.  The loop falling through
returns `(None, None)` as well. -/
def hostScan : List (List Char) → Option (List Char × Int)
  | [] => none
  | l :: ls =>
    if HOST_TOK.isPrefixOf l then
      match (pySplit ' ' l)[1]? with
      | some t => some (pyStrip t, 80)
      | none => none
    else hostScan ls

/-- `get_target_host` after the `request.decode('utf-8')` step.  The CONNECT
branch evaluates `request_str.split('\n')[0].split(' ')[1]`, splits that token
on `':'` (the two-variable unpacking raises unless the split has exactly two
fields) and applies `int` to the second field; every raised exception is
caught and becomes `(None, None)`. -/
def get_target_host_str (s : List Char) : Option (List Char × Int) :=
  if CONNECT_TOK.isPrefixOf s then
    match (pySplit ' ' ((pySplit '\n' s).headI))[1]? with
    | some tok =>
      match pySplit ':' tok with
      | [h, p] =>
        match pyInt p with
        | some n => some (h, n)
        | none => none
      | _ => none
    | none => none
  else
    hostScan (pySplit '\n' s)

/-- `get_target_host(request)` on raw bytes: the strict UTF-8 decode happens
inside the same `try`, so a `UnicodeDecodeError` also yields `(None, None)`. -/
def get_target_host (request : List Nat) : Option (List Char × Int) :=
  match utf8Decode request with
  | some s => get_target_host_str s
  | none => none

/-! ## Response literals -/

/-- The body literal of the 403 response in `send_forbidden`. -/
def forbiddenBodyStr : String :=
  "<html><body><h1>403 Forbidden: Access Denied</h1></body></html>"

/-- The full 403 response string built in `send_forbidden`, as the adjacent
Python string literals concatenate. -/
def forbiddenResponseStr : String :=
  "HTTP/1.1 403 Forbidden\r\n" ++
  "Content-Type: text/html\r\n" ++
  "Content-Length: 58\r\n" ++
  "\r\n" ++
  forbiddenBodyStr

/-- `response.encode('utf-8')` for the 403 literal. -/
def forbiddenBytes : List Nat := asciiBytes forbiddenResponseStr.toList

/-- The `b"HTTP/1.1 200 Connection Established\r\n\r\n"` literal written at
the top of `handle_https`. -/
def establishedBytes : List Nat :=
  asciiBytes ("HTTP/1.1 200 Connection Established\r\n\r\n".toList)

/-! ## Session model

One client session is summarised by what the handler wrote to and did with
each of the two transports.  Mid-stream write errors are not modelled; the
environment fixes whether the single `asyncio.open_connection` call succeeds
and which chunks each peer's reads produce (a read never yields more than
`BUFFER_SIZE` bytes; end of stream is the end of the chunk list or an empty
chunk, after which `relay` stops). -/

/-- Observable outcome of one `handle_client` session. -/
structure SessionResult where
  /-- Bytes written to the client transport, in order. -/
  clientOut : List Nat
  /-- Whether `close()` was called on the client transport. -/
  clientClosed : Bool
  /-- Whether `asyncio.open_connection` was invoked for this session. -/
  connectAttempted : Bool
  /-- Whether that call succeeded, i.e. an outbound connection existed. -/
  connectOpened : Bool
  /-- Bytes written to the outbound (server) transport, in order. -/
  serverOut : List Nat
  /-- Whether `close()` was called on the outbound transport. -/
  serverClosed : Bool
deriving DecidableEq

/-- External nondeterminism of one session: outcome of the single connect
attempt and the chunk sequences the two peers supply to `reader.read`. -/
structure Env where
  /-- Does `asyncio.open_connection` succeed? -/
  connectOk : Bool
  /-- Chunks later reads on the client connection return (tunnel leg). -/
  clientChunks : List (List Nat)
  /-- Chunks reads on the outbound connection return. -/
  serverChunks : List (List Nat)
deriving DecidableEq

/-- Bytes a `relay(reader, writer)` loop copies: chunks up to the first
empty read, concatenated; `relay` then closes its writer (`finally`). -/
def relayOut (chunks : List (List Nat)) : List Nat :=
  (chunks.takeWhile fun c => !c.isEmpty).flatten

/-- `send_forbidden(writer)`: writes the 403 literal, drains, closes the
client transport.  No outbound connection is involved. -/
def send_forbidden : SessionResult :=
  { clientOut := forbiddenBytes
    clientClosed := true
    connectAttempted := false
    connectOpened := false
    serverOut := []
    serverClosed := false }

/-- A session that closes the client transport without writing anything:
the `writer.close()` of the parse-failure branch and of the catch-all in
`handle_client`. -/
def closedSilently : SessionResult :=
  { clientOut := []
    clientClosed := true
    connectAttempted := false
    connectOpened := false
    serverOut := []
    serverClosed := false }

/-- `handle_https`: re-checks the blocklist, then writes the
`200 Connection Established` literal *before* attempting the outbound
connection.  On connect failure the catch-all closes the client transport.
On success both `relay` loops run and each closes its writer. -/
def handle_https (env : Env) (host : List Char) (port : Int) : SessionResult :=
  if host ∈ BLOCKED_HOSTS then send_forbidden
  else if env.connectOk then
    { clientOut := establishedBytes ++ relayOut env.serverChunks
      clientClosed := true
      connectAttempted := true
      connectOpened := true
      serverOut := relayOut env.clientChunks
      serverClosed := true }
  else
    { clientOut := establishedBytes
      clientClosed := true
      connectAttempted := true
      connectOpened := false
      serverOut := []
      serverClosed := false }

/-- `forward_http`: connects, writes the raw first-read request bytes to the
outbound transport, then relays the response back (`relay(server_reader,
writer)` closes the client transport; so does the `finally`).  Nothing in
the source ever closes the outbound transport on this path. -/
def forward_http (env : Env) (request : List Nat) (host : List Char)
    (port : Int) : SessionResult :=
  if env.connectOk then
    { clientOut := relayOut env.serverChunks
      clientClosed := true
      connectAttempted := true
      connectOpened := true
      serverOut := request
      serverClosed := false }
  else
    { clientOut := []
      clientClosed := true
      connectAttempted := true
      connectOpened := false
      serverOut := []
      serverClosed := false }

/-- `handle_client`: the `print(request.decode('utf-8'))` on line 15 raises
on undecodable bytes before the parser runs, and the catch-all closes the
client transport; otherwise the handler checks the blocklist, the `None`
parse result, and branches on the `b'CONNECT'` byte prefix. -/
def handle_client (env : Env) (request : List Nat) : SessionResult :=
  match utf8Decode request with
  | none => closedSilently
  | some s =>
    match get_target_host_str s with
    | some (host, port) =>
      if host ∈ BLOCKED_HOSTS then send_forbidden
      else if connectBytes.isPrefixOf request then handle_https env host port
      else forward_http env request host port
    | none => closedSilently

/-! ## Helper lemmas -/

/-- The `Host:` scanning loop processes exactly the first line that the
`startswith('Host:')` test accepts. -/
lemma hostScan_eq_find (ls : List (List Char)) :
    hostScan ls =
      match ls.find? (fun l => HOST_TOK.isPrefixOf l) with
      | some l =>
        match (pySplit ' ' l)[1]? with
        | some t => some (pyStrip t, 80)
        | none => none
      | none => none := by
  induction ls with
  | nil => rfl
  | cons l ls ih =>
    by_cases h : HOST_TOK.isPrefixOf l
    · simp [hostScan, List.find?, h]
    · simp [hostScan, List.find?, h, ih]

/-- When every chunk a peer supplies is non-empty, the relay loop copies
all of them. -/
lemma relayOut_eq_flatten (chunks : List (List Nat))
    (h : ∀ c ∈ chunks, c ≠ []) :
    relayOut chunks = chunks.flatten := by
  unfold relayOut
  congr 1
  induction chunks with
  | nil => rfl
  | cons c cs ih =>
    have hc : c ≠ [] := h c (List.mem_cons_self c cs)
    have : (!c.isEmpty) = true := by
      simp [List.isEmpty_iff, hc]
    rw [List.takeWhile_cons, this]
    simp only [if_true]
    rw [ih fun d hd => h d (List.mem_cons_of_mem c hd)]

/-- `handle_https` reaches its `asyncio.open_connection` call whenever the
host is not blocklisted, whether or not the connect succeeds. -/
lemma handle_https_attempted (env : Env) (host : List Char) (port : Int)
    (h : host ∉ BLOCKED_HOSTS) :
    (handle_https env host port).connectAttempted = true := by
  simp only [handle_https, if_neg h]
  cases env.connectOk <;> simp

/-- `forward_http` always reaches its `asyncio.open_connection` call. -/
lemma forward_http_attempted (env : Env) (request : List Nat)
    (host : List Char) (port : Int) :
    (forward_http env request host port).connectAttempted = true := by
  unfold forward_http
  cases env.connectOk <;> simp

/-! ## Claims -/

/-- C1: for every request whose resolved destination host is in the
blocklist, `handle_client` writes the fixed 403 response to the client,
closes the client connection, and never invokes the outbound connector. -/
theorem blocked_host_forbidden (env : Env) (request : List Nat)
    (s host : List Char) (port : Int)
    (hdec : utf8Decode request = some s)
    (hparse : get_target_host_str s = some (host, port))
    (hblock : host ∈ BLOCKED_HOSTS) :
    (handle_client env request).clientOut = forbiddenBytes ∧
    (handle_client env request).clientClosed = true ∧
    (handle_client env request).connectAttempted = false ∧
    (handle_client env request).serverOut = [] := by
  simp [handle_client, hdec, hparse, hblock, send_forbidden]

/-- C1 witness: a plain request for the blocklisted `www.example.com`. -/
theorem blocked_host_forbidden_witness :
    (handle_client ⟨true, [], []⟩
        (asciiBytes "GET / HTTP/1.1\nHost: www.example.com\r\n\r\n".toList)).clientOut
      = forbiddenBytes ∧
    (handle_client ⟨true, [], []⟩
        (asciiBytes "GET / HTTP/1.1\nHost: www.example.com\r\n\r\n".toList)).clientClosed
      = true ∧
    (handle_client ⟨true, [], []⟩
        (asciiBytes "GET / HTTP/1.1\nHost: www.example.com\r\n\r\n".toList)).connectAttempted
      = false ∧
    (handle_client ⟨true, [], []⟩
        (asciiBytes "GET / HTTP/1.1\nHost: www.example.com\r\n\r\n".toList)).serverOut
      = [] :=
  blocked_host_forbidden ⟨true, [], []⟩ _
    ("GET / HTTP/1.1\nHost: www.example.com\r\n\r\n".toList)
    ("www.example.com".toList) 80 (by decide) (by decide) (by decide)

/-- C2: a CONNECT session to an allowed host whose outbound connect fails
nevertheless receives the 39-byte `200 Connection Established` response
before the client connection is closed — `handle_https` writes the literal
*before* calling `asyncio.open_connection`, so an unreachable destination
is not closed silently, contradicting the claim that only denied hosts
receive response bytes. -/
theorem connect_unreachable_writes_200 :
    (handle_client ⟨false, [], []⟩
        (asciiBytes "CONNECT h.example:443 HTTP/1.1\r\n\r\n".toList)).clientOut
      = establishedBytes ∧
    establishedBytes ≠ [] ∧
    establishedBytes.length = 39 ∧
    (handle_client ⟨false, [], []⟩
        (asciiBytes "CONNECT h.example:443 HTTP/1.1\r\n\r\n".toList)).clientClosed
      = true ∧
    (handle_client ⟨false, [], []⟩
        (asciiBytes "CONNECT h.example:443 HTTP/1.1\r\n\r\n".toList)).connectOpened
      = false := by
  refine ⟨by decide, by decide, by decide, by decide, by decide⟩

/-- C3: a forward-mode session that connects successfully ends with the
outbound connection never closed — `forward_http` only ever closes the
client transport (its `finally` and the single `relay(server_reader,
writer)` both close `writer`), so the claim that every exit path closes
both connections fails. -/
theorem forward_mode_leaks_outbound :
    (handle_client ⟨true, [], [[104, 105]]⟩
        (asciiBytes "GET / HTTP/1.1\nHost: a.example\r\n\r\n".toList)).connectOpened
      = true ∧
    (handle_client ⟨true, [], [[104, 105]]⟩
        (asciiBytes "GET / HTTP/1.1\nHost: a.example\r\n\r\n".toList)).clientClosed
      = true ∧
    (handle_client ⟨true, [], [[104, 105]]⟩
        (asciiBytes "GET / HTTP/1.1\nHost: a.example\r\n\r\n".toList)).serverClosed
      = false := by
  refine ⟨by decide, by decide, by decide⟩

/-- C4: the 403 literal's body is 63 bytes long, while its
`Content-Length` header declares 58 — the declared length does not equal
the body's byte length. -/
theorem forbidden_content_length_mismatch :
    forbiddenResponseStr.toList =
      ("HTTP/1.1 403 Forbidden\r\nContent-Type: text/html\r\nContent-Length: 58\r\n\r\n".toList
        ++ forbiddenBodyStr.toList) ∧
    forbiddenBodyStr.toList.length = 63 ∧
    (asciiBytes forbiddenBodyStr.toList).length = 63 ∧
    ¬ (58 = forbiddenBodyStr.toList.length) := by
  refine ⟨by decide, by decide, by decide, by decide⟩

/-- C5 counterexample: `CONNECT h.example:70000` parses to port 70000,
outside `[1, 65535]`, yet the handler still invokes the outbound connector
and has already written the 200 literal, so the client connection is not
closed immediately with nothing written. -/
theorem port_range_counterexample :
    get_target_host (asciiBytes "CONNECT h.example:70000 HTTP/1.1\r\n\r\n".toList)
      = some ("h.example".toList, 70000) ∧
    (65535 : Int) < 70000 ∧
    (handle_client ⟨false, [], []⟩
        (asciiBytes "CONNECT h.example:70000 HTTP/1.1\r\n\r\n".toList)).connectAttempted
      = true ∧
    (handle_client ⟨false, [], []⟩
        (asciiBytes "CONNECT h.example:70000 HTTP/1.1\r\n\r\n".toList)).clientOut
      ≠ [] := by
  refine ⟨by decide, by decide, by decide, by decide⟩

/-- C5 (amended): the outbound connector is invoked exactly when the request
decodes, the parser resolves some `(host, port)`, and the host is not
blocklisted — no non-emptiness or port-range validation guards the
connect attempt. -/
theorem outbound_guard (env : Env) (request : List Nat) :
    (handle_client env request).connectAttempted = true ↔
      ∃ s host port, utf8Decode request = some s ∧
        get_target_host_str s = some (host, port) ∧ host ∉ BLOCKED_HOSTS := by
  unfold handle_client
  cases hdec : utf8Decode request with
  | none => simp [closedSilently, hdec]
  | some s =>
    cases hp : get_target_host_str s with
    | none => simp [closedSilently, hdec, hp]
    | some hostport =>
      obtain ⟨host, port⟩ := hostport
      by_cases hb : host ∈ BLOCKED_HOSTS
      · simp [hdec, hp, hb, send_forbidden]
      · by_cases hcb : connectBytes.isPrefixOf request
        · simp [hdec, hp, hb, hcb, handle_https_attempted env host port hb]
        · simp [hdec, hp, hb, hcb, forward_http_attempted env request host port]

/-- C5 witness: a parsed, non-blocklisted destination makes the handler
invoke the connector. -/
theorem outbound_guard_witness :
    (handle_client ⟨true, [], []⟩
        (asciiBytes "CONNECT c.example:443 HTTP/1.1\r\n\r\n".toList)).connectAttempted
      = true :=
  (outbound_guard ⟨true, [], []⟩
      (asciiBytes "CONNECT c.example:443 HTTP/1.1\r\n\r\n".toList)).mpr
    ⟨"CONNECT c.example:443 HTTP/1.1\r\n\r\n".toList, "c.example".toList, 443,
      by decide, by decide, by decide⟩

/-- C6 counterexample: with a tab after `CONNECT`, the second
whitespace-delimited token of the request line is `host:80`, a well-formed
`host:port` pair, yet the parser returns not-resolvable because the source
splits the line on the space character only. -/
theorem connect_whitespace_counterexample :
    (pySplitWs ((pySplit '\n' ("CONNECT\thost:80 HTTP/1.1\r\n\r\n".toList)).headI))[0]?
      = some CONNECT_TOK ∧
    (pySplitWs ((pySplit '\n' ("CONNECT\thost:80 HTTP/1.1\r\n\r\n".toList)).headI))[1]?
      = some ("host:80".toList) ∧
    pySplit ':' ("host:80".toList) = ["host".toList, "80".toList] ∧
    pyInt ("80".toList) = some 80 ∧
    get_target_host_str ("CONNECT\thost:80 HTTP/1.1\r\n\r\n".toList) = none ∧
    get_target_host_str ("CONNECT\thost:80 HTTP/1.1\r\n\r\n".toList)
      ≠ some ("host".toList, (80 : Int)) := by
  refine ⟨by decide, by decide, by decide, by decide, by decide, by decide⟩

/-- C6 (amended): for a request whose text begins with `CONNECT`, the parser
returns `(host, port)` exactly when the first newline-delimited line's second
*space*-delimited field splits on `':'` into exactly `host` and a port field
accepted by Python `int()`; every other shape is not-resolvable. -/
theorem connect_parse (s : List Char) (hc : CONNECT_TOK.isPrefixOf s = true)
    (hs : List Char) (n : Int) :
    get_target_host_str s = some (hs, n) ↔
      ∃ tok p, (pySplit ' ' ((pySplit '\n' s).headI))[1]? = some tok ∧
        pySplit ':' tok = [hs, p] ∧ pyInt p = some n := by
  unfold get_target_host_str
  simp only [hc, if_true]
  cases h1 : (pySplit ' ' ((pySplit '\n' s).headI))[1]? with
  | none => simp
  | some tok =>
    simp only [Option.some.injEq]
    cases h2 : pySplit ':' tok with
    | nil => simp [h2]
    | cons a l =>
      cases l with
      | nil => simp [h2]
      | cons b l2 =>
        cases l2 with
        | cons c l3 => simp [h2]
        | nil =>
          cases h3 : pyInt b with
          | none =>
            simp [h3]
            intro x hx hint
            rw [h2] at hx
            simp only [List.cons.injEq, and_true] at hx
            obtain ⟨rfl, rfl⟩ := hx
            simp [h3] at hint
          | some m =>
            simp [h2, h3]
            constructor
            · rintro ⟨rfl, rfl⟩
              exact ⟨b, ⟨rfl, rfl⟩, h3⟩
            · rintro ⟨x, ⟨rfl, rfl⟩, hint⟩
              rw [h3] at hint
              exact ⟨rfl, Option.some.inj hint⟩

/-- C6 witness: a well-formed CONNECT request line parses to its host and
port. -/
theorem connect_parse_witness :
    get_target_host_str ("CONNECT example.org:443 HTTP/1.1\r\n\r\n".toList)
      = some ("example.org".toList, 443) :=
  (connect_parse ("CONNECT example.org:443 HTTP/1.1\r\n\r\n".toList)
      (by decide) ("example.org".toList) 443).mpr
    ⟨"example.org:443".toList, "443".toList, by decide, by decide, by decide⟩

/-- C7 counterexample: in `Host:  example.com` (two spaces) the
whitespace-delimited token following the colon is `example.com`, but the
source takes `line.split(' ')[1].strip()`, the empty field between the two
spaces, and returns the empty host with port 80. -/
theorem host_token_counterexample :
    (pySplit '\n' ("GET / HTTP/1.1\nHost:  example.com\r\n".toList)).find?
        (fun l => HOST_TOK.isPrefixOf l)
      = some ("Host:  example.com\r".toList) ∧
    "Host:  example.com\r".toList = HOST_TOK ++ "  example.com\r".toList ∧
    pySplitWs ("  example.com\r".toList) = ["example.com".toList] ∧
    get_target_host_str ("GET / HTTP/1.1\nHost:  example.com\r\n".toList)
      = some (([] : List Char), 80) ∧
    get_target_host_str ("GET / HTTP/1.1\nHost:  example.com\r\n".toList)
      ≠ some ("example.com".toList, (80 : Int)) := by
  refine ⟨by decide, by decide, by decide, by decide, by decide⟩

/-- C7 (amended): for a non-CONNECT request, the parser returns, with port
80, the second space-delimited field of the first `Host:`-line stripped of
surrounding whitespace; a first `Host:`-line with no space field after index
0 yields not-resolvable (the `IndexError` is swallowed), as does the absence
of any `Host:` line. -/
theorem host_parse (s : List Char) (hnc : CONNECT_TOK.isPrefixOf s = false) :
    (∀ l t, (pySplit '\n' s).find? (fun l => HOST_TOK.isPrefixOf l) = some l →
        (pySplit ' ' l)[1]? = some t →
        get_target_host_str s = some (pyStrip t, 80)) ∧
    (∀ l, (pySplit '\n' s).find? (fun l => HOST_TOK.isPrefixOf l) = some l →
        (pySplit ' ' l)[1]? = none → get_target_host_str s = none) ∧
    ((pySplit '\n' s).find? (fun l => HOST_TOK.isPrefixOf l) = none →
        get_target_host_str s = none) := by
  unfold get_target_host_str
  rw [if_neg (by simp [hnc]), hostScan_eq_find]
  refine ⟨?_, ?_, ?_⟩
  · intro l t h1 h2
    rw [h1]
    simp [h2]
  · intro l h1 h2
    rw [h1]
    simp [h2]
  · intro h1
    rw [h1]

/-- C7 witness: a standard `Host:` header line parses to its host with
port 80. -/
theorem host_parse_witness :
    get_target_host_str ("GET / HTTP/1.1\nHost: w.example\r\n\r\n".toList)
      = some ("w.example".toList, 80) :=
  (host_parse ("GET / HTTP/1.1\nHost: w.example\r\n\r\n".toList) (by decide)).1
    ("Host: w.example\r".toList) ("w.example\r".toList) (by decide) (by decide)

/-- C8: in forward mode the first-read request bytes reach the destination
byte-for-byte, and the destination's response chunks reach the client
byte-for-byte (for arbitrary binary chunks, empty reads meaning
end-of-stream). -/
theorem forward_passthrough (env : Env) (request : List Nat)
    (s host : List Char) (port : Int)
    (hdec : utf8Decode request = some s)
    (hparse : get_target_host_str s = some (host, port))
    (hblock : host ∉ BLOCKED_HOSTS)
    (hnc : connectBytes.isPrefixOf request = false)
    (hok : env.connectOk = true)
    (hchunks : ∀ c ∈ env.serverChunks, c ≠ []) :
    (handle_client env request).serverOut = request ∧
    (handle_client env request).clientOut = env.serverChunks.flatten := by
  simp [handle_client, hdec, hparse, hblock, hnc, forward_http, hok,
    relayOut_eq_flatten _ hchunks]

/-- C8 witness: a concrete forward-mode session with a two-chunk binary
response. -/
theorem forward_passthrough_witness :
    (handle_client ⟨true, [], [[0, 255], [7]]⟩
        (asciiBytes "GET / HTTP/1.1\nHost: a.example\r\n\r\n".toList)).serverOut
      = asciiBytes "GET / HTTP/1.1\nHost: a.example\r\n\r\n".toList ∧
    (handle_client ⟨true, [], [[0, 255], [7]]⟩
        (asciiBytes "GET / HTTP/1.1\nHost: a.example\r\n\r\n".toList)).clientOut
      = ([[0, 255], [7]] : List (List Nat)).flatten :=
  forward_passthrough ⟨true, [], [[0, 255], [7]]⟩
    (asciiBytes "GET / HTTP/1.1\nHost: a.example\r\n\r\n".toList)
    ("GET / HTTP/1.1\nHost: a.example\r\n\r\n".toList)
    ("a.example".toList) 80
    (by decide) (by decide) (by decide) (by decide) rfl (by decide)

/-- C9: the head parser is total by construction (a structurally recursive
Lean function), and every failure — including a byte sequence that is not
valid UTF-8 — is the not-resolvable result `none`; on decodable input it is
exactly the pure string-level parser, which itself only ever returns a value
or `none`. -/
theorem parser_total (request : List Nat) :
    (utf8Decode request = none → get_target_host request = none) ∧
    ∀ s, utf8Decode request = some s →
      get_target_host request = get_target_host_str s := by
  constructor
  · intro h
    simp [get_target_host, h]
  · intro s h
    simp [get_target_host, h]

/-- C9 witness: the invalid byte `0xFF` fails to decode and the parser
reports not-resolvable. -/
theorem parser_total_witness :
    get_target_host [255] = none :=
  (parser_total [255]).1 (by decide)

/-- C10: in forward mode the only client bytes ever forwarded to the
destination are those of the first read (at most `BUFFER_SIZE = 4096`
bytes); whatever the client sends afterwards is never forwarded. -/
theorem forward_single_direction (env : Env) (request : List Nat)
    (s host : List Char) (port : Int)
    (hdec : utf8Decode request = some s)
    (hparse : get_target_host_str s = some (host, port))
    (hblock : host ∉ BLOCKED_HOSTS)
    (hnc : connectBytes.isPrefixOf request = false)
    (hok : env.connectOk = true)
    (hlen : request.length ≤ BUFFER_SIZE) :
    (handle_client env request).serverOut = request ∧
    (handle_client env request).serverOut.length ≤ BUFFER_SIZE ∧
    ∀ laterChunks : List (List Nat),
      (handle_client { env with clientChunks := laterChunks } request).serverOut
        = request := by
  refine ⟨?_, ?_, ?_⟩
  · simp [handle_client, hdec, hparse, hblock, hnc, forward_http, hok]
  · simp [handle_client, hdec, hparse, hblock, hnc, forward_http, hok, hlen]
  · intro laterChunks
    simp [handle_client, hdec, hparse, hblock, hnc, forward_http, hok]

/-- C10 witness: later client chunks do not change what reaches the
destination. -/
theorem forward_single_direction_witness :
    (handle_client ⟨true, [], [[1, 2]]⟩
        (asciiBytes "GET / HTTP/1.1\nHost: b.example\r\n\r\n".toList)).serverOut
      = asciiBytes "GET / HTTP/1.1\nHost: b.example\r\n\r\n".toList ∧
    (handle_client ⟨true, [[9, 9, 9]], [[1, 2]]⟩
        (asciiBytes "GET / HTTP/1.1\nHost: b.example\r\n\r\n".toList)).serverOut
      = asciiBytes "GET / HTTP/1.1\nHost: b.example\r\n\r\n".toList :=
  have h := forward_single_direction ⟨true, [], [[1, 2]]⟩
    (asciiBytes "GET / HTTP/1.1\nHost: b.example\r\n\r\n".toList)
    ("GET / HTTP/1.1\nHost: b.example\r\n\r\n".toList)
    ("b.example".toList) 80
    (by decide) (by decide) (by decide) (by decide) rfl (by decide)
  ⟨h.1, h.2.2 [[9, 9, 9]]⟩

end ProxyServer
